import Mathlib

/-!
Shallow embedding of `backend/server.py` (Virtual Try-On API).

The Python service keeps two Mongo collections; the claims only concern the
`tryon_results` collection, modelled here as a `List TryOnResult` in insertion
order.  Nondeterministic inputs of a request handler (the freshly generated
uuid, the `utcnow` timestamp, the behaviour of the Pillow decoder and of the
FAL.AI job API) are passed in explicitly as parameters, so every handler is a
pure function from its request, those oracles and the current store to a
result together with the new store.
-/

namespace TryOnServer

/-- Embeds the pydantic model `Measurements` (five string-typed fields). -/
structure Measurements where
  height : String
  weight : String
  chest : String
  waist : String
  hips : String
deriving DecidableEq, Repr

/-- Embeds the pydantic model `TryOnRequest`.  The `style` default
`"casual"` is applied by pydantic at parse time; here the field is explicit. -/
structure TryOnRequest where
  name : String
  user_image : String
  clothing_image : String
  measurements : Measurements
  style : String
deriving DecidableEq, Repr

/-- Embeds the pydantic model `TryOnResult` (the persisted record).
`id` and `created_at` are `default_factory` values, supplied explicitly to the
handlers; `created_at` is an abstract timestamp (`Nat`).  `measurements` is a
`Dict` in the source, built from `request.measurements.dict()`, hence it always
holds exactly the five `Measurements` fields and is typed as such here. -/
structure TryOnResult where
  id : String
  name : String
  user_image_url : Option String
  clothing_image_url : Option String
  tryon_image : Option String
  measurements : Measurements
  style : String
  feedback : Option String
  created_at : Nat
  status : String
deriving DecidableEq, Repr

/-- Embeds FastAPI `HTTPException(status_code, detail)`. -/
structure HTTPException where
  status_code : Nat
  detail : String
deriving DecidableEq, Repr

/-- The JSON body returned by `generate_tryon` on success:
`{"success", "id", "tryon_image", "feedback", "status"}`. -/
structure TryOnGenerateResponse where
  success : Bool
  id : String
  tryon_image : Option String
  feedback : Option String
  status : String
deriving DecidableEq, Repr

/-- The JSON body returned by `get_tryon_image_base64` on success:
`{"success", "image_base64", "id"}`. -/
structure Base64Response where
  success : Bool
  image_base64 : String
  id : String
deriving DecidableEq, Repr

/-- The arguments dict passed to `fal_client.submit_async` (besides the fixed
model string `"fal-ai/flux/dev"`). -/
structure FalArguments where
  prompt : String
  image_size : String
  num_inference_steps : Nat
  guidance_scale : ℚ
  num_images : Nat
deriving DecidableEq, Repr

/-- Oracle for the FAL.AI round trip (`submit_async` + `handler.get()`):
either the transport raises (`transportError`, carrying the exception text) or
a response dict arrives.  `response none` stands for a falsy response or one
without an `images` key; `response (some urls)` carries the list of image
urls `[img["url"] for img in result["images"]]`. -/
inductive FalResponse where
  | transportError (msg : String)
  | response (images : Option (List String))
deriving DecidableEq, Repr

/-- The dict returned by `generate_virtual_tryon`:
`{"success": True, "tryon_image", "feedback"}` or
`{"success": False, "error"}`. -/
inductive GenResult where
  | success (tryon_image : String) (feedback : String)
  | failure (error : String)
deriving DecidableEq, Repr

/-- Embeds Python `str.strip()` (used as `request.name.strip()`): removes
leading and trailing whitespace. -/
def strip (s : String) : String :=
  String.mk (((s.data.dropWhile Char.isWhitespace).reverse.dropWhile Char.isWhitespace).reverse)

/-- The f-string prompt built inside `generate_virtual_tryon`.  It mentions
only the measurements and the style (not the name and not the images).
Apostrophes of the original English text are elided. -/
def tryonPrompt (measurements : Measurements) (style : String) : String :=
  "\n        Create a photorealistic virtual try-on image showing a person wearing the provided clothing item. \n        The person should match these measurements: height "
    ++ measurements.height ++ "cm, weight " ++ measurements.weight ++ "kg, \n        chest "
    ++ measurements.chest ++ "cm, waist " ++ measurements.waist ++ "cm, hips "
    ++ measurements.hips ++ "cm.\n        Style preference: " ++ style
    ++ ". \n        The clothing should fit naturally and realistically on the persons body. \n        Maintain the original persons appearance and facial features while showing them wearing the new outfit.\n        The final image should look natural, well-lit, and professional.\n        "

/-- The arguments dict of the single `fal_client.submit_async` call. -/
def falArgumentsFor (measurements : Measurements) (style : String) : FalArguments :=
  { prompt := tryonPrompt measurements style
    image_size := "portrait"
    num_inference_steps := 28
    guidance_scale := 3.5
    num_images := 1 }

/-- Embeds `generate_virtual_tryon`.  `decodeOk` abstracts whether
`base64_to_pil` succeeds on a payload (it logs and returns `None` on failure).
Every exception inside the body is caught by the trailing `except`, which
returns `{"success": False, "error": str(e)}` — so the function is total.
The first component of the result records the external-job invocation: `none`
when `fal_client.submit_async` is never reached (an image failed to decode),
`some args` when it is called with `args`.  The `name` parameter is used only
for logging in the source, hence unused here. -/
def generate_virtual_tryon (user_image_b64 clothing_image_b64 : String)
    (measurements : Measurements) (style : String) (name : String)
    (decodeOk : String → Bool) (falResp : FalResponse) :
    Option FalArguments × GenResult :=
  if decodeOk user_image_b64 && decodeOk clothing_image_b64 then
    (some (falArgumentsFor measurements style),
      match falResp with
      | .transportError msg => .failure msg
      | .response images =>
        match images with
        | some (url :: _) =>
            .success url ("Virtual try-on generated successfully for " ++ style ++ " style!")
        | _ => .failure "No images generated by FAL.AI")
  else
    (none, .failure "Failed to process uploaded images")

/-- The `TryOnResult(...)` constructed at the top of `generate_tryon`: listed
fields from the request, all other fields at their pydantic defaults. -/
def initial_tryon_result (request : TryOnRequest) (newId : String) (now : Nat) : TryOnResult :=
  { id := newId
    name := request.name
    user_image_url := none
    clothing_image_url := none
    tryon_image := none
    measurements := request.measurements
    style := request.style
    feedback := none
    created_at := now
    status := "processing" }

/-- Embeds `db.tryon_results.find_one({"id": i})`: the first stored record
whose `id` field equals `i`. -/
def find_one (store : List TryOnResult) (i : String) : Option TryOnResult :=
  store.find? (fun r => r.id == i)

/-- Embeds `db.tryon_results.update_one({"id": i}, {"$set": ...})`: applies
`f` to the first stored record whose `id` equals `i`, leaves the rest alone. -/
def update_one (store : List TryOnResult) (i : String) (f : TryOnResult → TryOnResult) :
    List TryOnResult :=
  match store with
  | [] => []
  | r :: rs => if r.id == i then f r :: rs else r :: update_one rs i f

/-- Embeds the handler `generate_tryon` of `POST /api/tryon/generate`.
Validation is in source order (user image, clothing image, trimmed name);
then the `processing` record is inserted, `generate_virtual_tryon` is awaited,
and on success the whole updated record is `$set` while on failure only
`{"status": "failed"}` is.  `newId`/`now` are the uuid and `utcnow` values of
the `TryOnResult` default factories. -/
def generate_tryon (request : TryOnRequest) (newId : String) (now : Nat)
    (decodeOk : String → Bool) (falResp : FalResponse) (store : List TryOnResult) :
    Except HTTPException TryOnGenerateResponse × List TryOnResult :=
  if request.user_image = "" then
    (.error ⟨400, "User image is required"⟩, store)
  else if request.clothing_image = "" then
    (.error ⟨400, "Clothing image is required"⟩, store)
  else if strip request.name = "" then
    (.error ⟨400, "Name is required"⟩, store)
  else
    let tryon_result := initial_tryon_result request newId now
    let store₁ := store ++ [tryon_result]
    let generation_result :=
      (generate_virtual_tryon request.user_image request.clothing_image
        request.measurements request.style request.name decodeOk falResp).2
    match generation_result with
    | .success img fb =>
        let updated : TryOnResult :=
          { tryon_result with tryon_image := some img, feedback := some fb, status := "completed" }
        (.ok { success := true
               id := updated.id
               tryon_image := updated.tryon_image
               feedback := updated.feedback
               status := updated.status },
         update_one store₁ newId (fun _ => updated))
    | .failure err =>
        (.error ⟨500, "Failed to generate try-on: " ++ err⟩,
         update_one store₁ newId (fun r => { r with status := "failed" }))

/-- Embeds the handler `get_tryon_result` of `GET /api/tryon/{id}`. -/
def get_tryon_result (store : List TryOnResult) (tryon_id : String) :
    Except HTTPException TryOnResult :=
  match find_one store tryon_id with
  | none => .error ⟨404, "Try-on result not found"⟩
  | some r => .ok r

/-- Embeds the handler `get_tryon_image_base64` of `GET /api/tryon/{id}/base64`.
The source guards with `if not result.get("tryon_image")`, which rejects both
a missing field and an empty string (Python falsiness). -/
def get_tryon_image_base64 (store : List TryOnResult) (tryon_id : String) :
    Except HTTPException Base64Response :=
  match find_one store tryon_id with
  | none => .error ⟨404, "Try-on result not found"⟩
  | some r =>
    match r.tryon_image with
    | none => .error ⟨404, "Try-on image not available"⟩
    | some img =>
        if img = "" then .error ⟨404, "Try-on image not available"⟩
        else .ok { success := true, image_base64 := img, id := tryon_id }

/-- Embeds the handler `get_all_tryons` of `GET /api/tryons`:
`find().sort("created_at", -1).to_list(100)` — the stored records sorted by
creation time, newest first, truncated to 100. -/
def get_all_tryons (store : List TryOnResult) : List TryOnResult :=
  (store.mergeSort (fun a b => b.created_at ≤ a.created_at)).take 100

/-! ### Specification predicates -/

/-- The three validation checks of `generate_tryon` all pass. -/
def validRequest (request : TryOnRequest) : Prop :=
  request.user_image ≠ "" ∧ request.clothing_image ≠ "" ∧ strip request.name ≠ ""

instance (request : TryOnRequest) : Decidable (validRequest request) := by
  unfold validRequest; infer_instance

/-- `i` collides with no id already in the store (uuid freshness). -/
def freshId (store : List TryOnResult) (i : String) : Prop :=
  ∀ r ∈ store, r.id ≠ i

instance (store : List TryOnResult) (i : String) : Decidable (freshId store i) := by
  unfold freshId; infer_instance

/-- The validation error detail names a field that is indeed missing. -/
def namesMissingField (request : TryOnRequest) (detail : String) : Prop :=
  (request.user_image = "" ∧ detail = "User image is required")
  ∨ (request.clothing_image = "" ∧ detail = "Clothing image is required")
  ∨ (strip request.name = "" ∧ detail = "Name is required")

/-- Store invariant: the artifact field is present exactly on completed
records. -/
def artifactStatusInv (store : List TryOnResult) : Prop :=
  ∀ r ∈ store, (r.tryon_image ≠ none ↔ r.status = "completed")

instance (store : List TryOnResult) : Decidable (artifactStatusInv store) := by
  unfold artifactStatusInv; infer_instance

/-- Weaker store coherence used for the artifact endpoint: a record that is
not completed carries no artifact. -/
def statusArtifactCoherent (store : List TryOnResult) : Prop :=
  ∀ r ∈ store, r.status ≠ "completed" → r.tryon_image = none

instance (store : List TryOnResult) : Decidable (statusArtifactCoherent store) := by
  unfold statusArtifactCoherent; infer_instance

/-- The status of the record with id `i`, if any. -/
def statusOf (store : List TryOnResult) (i : String) : Option String :=
  (find_one store i).map (fun r => r.status)

/-- Environment assumption on the FAL.AI provider: every url it returns is a
non-empty string. -/
def urlsNonEmpty : FalResponse → Prop
  | .response (some urls) => ∀ u ∈ urls, u ≠ ""
  | _ => True

instance (falResp : FalResponse) : Decidable (urlsNonEmpty falResp) := by
  unfold urlsNonEmpty; cases falResp with
  | transportError msg => exact inferInstanceAs (Decidable True)
  | response images => cases images <;> infer_instance

/-- Erases the two freshly generated fields (`id`, `created_at`), leaving the
content fields of a record. -/
def contentFields (r : TryOnResult) : TryOnResult :=
  { r with id := "", created_at := 0 }

/-! ### Concrete sample inputs (used by the closed witness theorems) -/

def sampleMeasurements : Measurements :=
  { height := "170", weight := "65", chest := "90", waist := "75", hips := "95" }

def sampleRequest : TryOnRequest :=
  { name := "Test User"
    user_image := "user-image-b64"
    clothing_image := "clothing-image-b64"
    measurements := sampleMeasurements
    style := "casual" }

/-- A FAL.AI response carrying exactly one artifact url. -/
def sampleFal : FalResponse := .response (some ["http://fal.media/img.png"])

/-- A FAL.AI response with an empty result set. -/
def emptyFal : FalResponse := .response (some [])

/-- A Pillow oracle under which every payload decodes. -/
def allDecode : String → Bool := fun _ => true

/-! ### Store helper lemmas -/

theorem find_one_nil (i : String) : find_one [] i = none := rfl

theorem find_one_append (s t : List TryOnResult) (i : String) :
    find_one (s ++ t) i = (find_one s i).or (find_one t i) := by
  simp [find_one, List.find?_append]

theorem find_one_singleton (t : TryOnResult) (i : String) :
    find_one [t] i = if t.id = i then some t else none := by
  simp [find_one, List.find?]
  split <;> simp_all

theorem find_one_append_fresh (s : List TryOnResult) (t : TryOnResult) (i : String)
    (ht : t.id = i) (h : freshId s i) : find_one (s ++ [t]) i = some t := by
  have hs : find_one s i = none := by
    simp only [find_one, List.find?_eq_none]
    intro r hr
    simpa using h r hr
  rw [find_one_append, hs, find_one_singleton]
  simp [ht]

theorem update_one_append_fresh (s : List TryOnResult) (t : TryOnResult) (i : String)
    (f : TryOnResult → TryOnResult) (ht : t.id = i) (h : freshId s i) :
    update_one (s ++ [t]) i f = s ++ [f t] := by
  induction s with
  | nil => simp [update_one, ht]
  | cons r rs ih =>
      have hr : r.id ≠ i := h r (List.mem_cons_self r rs)
      have hrest : freshId rs i := fun x hx => h x (List.mem_cons_of_mem r hx)
      simp only [List.cons_append, update_one]
      rw [if_neg (by simpa using hr)]
      simp only [List.append_eq]
      rw [ih hrest]

/-! ### Behaviour of the external-job wrapper -/

theorem generate_virtual_tryon_cases (ui ci : String) (m : Measurements)
    (style name : String) (dec : String → Bool) (falResp : FalResponse) :
    (generate_virtual_tryon ui ci m style name dec falResp).2
      = (if dec ui && dec ci then
          match falResp with
          | .transportError msg => .failure msg
          | .response (some (url :: _)) =>
              .success url ("Virtual try-on generated successfully for " ++ style ++ " style!")
          | .response (some []) => .failure "No images generated by FAL.AI"
          | .response none => .failure "No images generated by FAL.AI"
         else .failure "Failed to process uploaded images") := by
  unfold generate_virtual_tryon
  split
  · cases falResp with
    | transportError msg => rfl
    | response images =>
        cases images with
        | none => rfl
        | some urls => cases urls <;> rfl
  · rfl

theorem generate_virtual_tryon_success_shape (ui ci : String) (m : Measurements)
    (style name : String) (dec : String → Bool) (falResp : FalResponse)
    (img fb : String)
    (h : (generate_virtual_tryon ui ci m style name dec falResp).2 = .success img fb)
    (hu : urlsNonEmpty falResp) : img ≠ "" := by
  rw [generate_virtual_tryon_cases] at h
  by_cases hd : dec ui && dec ci
  · rw [if_pos hd] at h
    cases falResp with
    | transportError msg => simp at h
    | response images =>
        cases images with
        | none => simp at h
        | some urls =>
            cases urls with
            | nil => simp at h
            | cons u rest =>
                have : u = img := by cases h; rfl
                subst this
                exact hu u (List.mem_cons_self u rest)
  · rw [if_neg hd] at h
    simp at h

/-! ### Scenario lemmas for the submit handler -/

theorem generate_tryon_success_eq (request : TryOnRequest) (newId : String) (now : Nat)
    (dec : String → Bool) (falResp : FalResponse) (store : List TryOnResult)
    (img fb : String)
    (hv : validRequest request) (hf : freshId store newId)
    (hg : (generate_virtual_tryon request.user_image request.clothing_image
            request.measurements request.style request.name dec falResp).2
          = .success img fb) :
    generate_tryon request newId now dec falResp store
      = (.ok { success := true, id := newId, tryon_image := some img,
               feedback := some fb, status := "completed" },
         store ++ [{ initial_tryon_result request newId now with
                      tryon_image := some img, feedback := some fb,
                      status := "completed" }]) := by
  obtain ⟨h1, h2, h3⟩ := hv
  unfold generate_tryon
  rw [if_neg h1, if_neg h2, if_neg h3]
  simp only [hg]
  rw [update_one_append_fresh store (initial_tryon_result request newId now) newId _ rfl hf]
  rfl

theorem generate_tryon_failure_eq (request : TryOnRequest) (newId : String) (now : Nat)
    (dec : String → Bool) (falResp : FalResponse) (store : List TryOnResult)
    (err : String)
    (hv : validRequest request) (hf : freshId store newId)
    (hg : (generate_virtual_tryon request.user_image request.clothing_image
            request.measurements request.style request.name dec falResp).2
          = .failure err) :
    generate_tryon request newId now dec falResp store
      = (.error ⟨500, "Failed to generate try-on: " ++ err⟩,
         store ++ [{ initial_tryon_result request newId now with status := "failed" }]) := by
  obtain ⟨h1, h2, h3⟩ := hv
  unfold generate_tryon
  rw [if_neg h1, if_neg h2, if_neg h3]
  simp only [hg]
  rw [update_one_append_fresh store (initial_tryon_result request newId now) newId _ rfl hf]

/-! ### Claim C2 -/

/-- C2: a submit request with an empty (stripped) name, or an empty user
image, or an empty clothing image fails with an HTTP 400 error whose detail
names a missing field, and the store is left exactly as it was (no record is
persisted by the call). -/
theorem C2_validation_rejects_and_persists_nothing
    (request : TryOnRequest) (newId : String) (now : Nat)
    (dec : String → Bool) (falResp : FalResponse) (store : List TryOnResult)
    (h : strip request.name = "" ∨ request.user_image = "" ∨ request.clothing_image = "") :
    ∃ e : HTTPException,
      (generate_tryon request newId now dec falResp store).1 = .error e
      ∧ e.status_code = 400
      ∧ namesMissingField request e.detail
      ∧ (generate_tryon request newId now dec falResp store).2 = store := by
  by_cases h1 : request.user_image = ""
  · exact ⟨⟨400, "User image is required"⟩, by simp [generate_tryon, h1], rfl,
      Or.inl ⟨h1, rfl⟩, by simp [generate_tryon, h1]⟩
  · by_cases h2 : request.clothing_image = ""
    · exact ⟨⟨400, "Clothing image is required"⟩, by simp [generate_tryon, h1, h2], rfl,
        Or.inr (Or.inl ⟨h2, rfl⟩), by simp [generate_tryon, h1, h2]⟩
    · have h3 : strip request.name = "" := by tauto
      exact ⟨⟨400, "Name is required"⟩, by simp [generate_tryon, h1, h2, h3], rfl,
        Or.inr (Or.inr ⟨h3, rfl⟩), by simp [generate_tryon, h1, h2, h3]⟩

/-- Witness for C2 at a concrete input: an all-whitespace name is rejected
and nothing is stored. -/
theorem C2_witness :
    ∃ e : HTTPException,
      (generate_tryon { sampleRequest with name := "   " } "id-1" 0 allDecode sampleFal []).1
          = .error e
      ∧ e.status_code = 400
      ∧ namesMissingField { sampleRequest with name := "   " } e.detail
      ∧ (generate_tryon { sampleRequest with name := "   " } "id-1" 0 allDecode sampleFal []).2
          = [] :=
  C2_validation_rejects_and_persists_nothing
    { sampleRequest with name := "   " } "id-1" 0 allDecode sampleFal []
    (Or.inl (by decide))

/-! ### Claim C7 -/

/-- C7: `get_all_tryons` returns at most 100 records, each of them a record
of the store, ordered newest-first by `created_at`; moreover when the store
has at most 100 records the result is a permutation of the whole store. -/
theorem C7_list_all_sorted_capped (store : List TryOnResult) :
    (get_all_tryons store).length ≤ 100
    ∧ (∀ r ∈ get_all_tryons store, r ∈ store)
    ∧ (get_all_tryons store).Pairwise (fun a b => b.created_at ≤ a.created_at)
    ∧ (store.length ≤ 100 → (get_all_tryons store).Perm store) := by
  refine ⟨?_, ?_, ?_, ?_⟩
  · simp only [get_all_tryons, List.length_take]
    omega
  · intro r hr
    exact List.mem_mergeSort.mp ((List.take_sublist _ _).mem hr)
  · have hs := @List.sorted_mergeSort TryOnResult
      (fun a b => decide (b.created_at ≤ a.created_at))
      (by intro a b c hab hbc; simp_all; omega)
      (by intro a b; simp; omega) store
    exact (List.Pairwise.sublist (List.take_sublist _ _) hs).imp (by simp)
  · intro hle
    rw [get_all_tryons, List.take_of_length_le (by simpa using hle)]
    exact List.mergeSort_perm store _

/-- Witness for C7 at a concrete two-record store (older record first). -/
theorem C7_witness :
    (get_all_tryons
        [initial_tryon_result sampleRequest "id-1" 3,
         initial_tryon_result sampleRequest "id-2" 7]).length ≤ 100
    ∧ (∀ r ∈ get_all_tryons
          [initial_tryon_result sampleRequest "id-1" 3,
           initial_tryon_result sampleRequest "id-2" 7],
        r ∈ [initial_tryon_result sampleRequest "id-1" 3,
             initial_tryon_result sampleRequest "id-2" 7])
    ∧ (get_all_tryons
        [initial_tryon_result sampleRequest "id-1" 3,
         initial_tryon_result sampleRequest "id-2" 7]).Pairwise
        (fun a b => b.created_at ≤ a.created_at)
    ∧ ([initial_tryon_result sampleRequest "id-1" 3,
        initial_tryon_result sampleRequest "id-2" 7].length ≤ 100 →
        (get_all_tryons
          [initial_tryon_result sampleRequest "id-1" 3,
           initial_tryon_result sampleRequest "id-2" 7]).Perm
          [initial_tryon_result sampleRequest "id-1" 3,
           initial_tryon_result sampleRequest "id-2" 7]) :=
  C7_list_all_sorted_capped
    [initial_tryon_result sampleRequest "id-1" 3,
     initial_tryon_result sampleRequest "id-2" 7]

/-! ### Claim C6 -/

/-- C6: on a store in which non-completed records carry no artifact (which
the lifecycle maintains, see C3), `get_tryon_image_base64` fails with the
not-found error when no record has the id, fails with the
image-not-available error when the record exists but is not completed, and
returns an artifact only for an existing, completed record that has one. -/
theorem C6_get_artifact_errors (store : List TryOnResult) (i : String)
    (hinv : statusArtifactCoherent store) :
    (find_one store i = none →
        get_tryon_image_base64 store i = .error ⟨404, "Try-on result not found"⟩)
    ∧ (∀ r, find_one store i = some r → r.status ≠ "completed" →
        get_tryon_image_base64 store i = .error ⟨404, "Try-on image not available"⟩)
    ∧ (∀ resp, get_tryon_image_base64 store i = .ok resp →
        ∃ r, find_one store i = some r
          ∧ r.status = "completed"
          ∧ r.tryon_image = some resp.image_base64
          ∧ resp.image_base64 ≠ "") := by
  refine ⟨?_, ?_, ?_⟩
  · intro hnone
    simp [get_tryon_image_base64, hnone]
  · intro r hr hst
    have hmem : r ∈ store := List.mem_of_find?_eq_some hr
    have hart : r.tryon_image = none := hinv r hmem hst
    simp [get_tryon_image_base64, hr, hart]
  · intro resp hok
    cases hfind : find_one store i with
    | none => simp [get_tryon_image_base64, hfind] at hok
    | some r =>
        cases hart : r.tryon_image with
        | none => simp [get_tryon_image_base64, hfind, hart] at hok
        | some img =>
            by_cases himg : img = ""
            · simp [get_tryon_image_base64, hfind, hart, himg] at hok
            · simp [get_tryon_image_base64, hfind, hart, himg] at hok
              have hresp : resp = ⟨true, img, i⟩ := by
                cases hok
                rfl
              subst hresp
              refine ⟨r, rfl, ?_, hart, himg⟩
              by_contra hst
              have hnone := hinv r (List.mem_of_find?_eq_some hfind) hst
              rw [hart] at hnone
              exact Option.noConfusion hnone

/-- Witness for C6 on a concrete coherent two-record store: an unknown id,
a failed record without artifact, and a completed record with one. -/
theorem C6_witness :
    (find_one
        [{ initial_tryon_result sampleRequest "id-1" 3 with status := "failed" },
         { initial_tryon_result sampleRequest "id-2" 7 with
            tryon_image := some "http://fal.media/img.png", status := "completed" }] "id-9"
          = none →
      get_tryon_image_base64
        [{ initial_tryon_result sampleRequest "id-1" 3 with status := "failed" },
         { initial_tryon_result sampleRequest "id-2" 7 with
            tryon_image := some "http://fal.media/img.png", status := "completed" }] "id-9"
          = .error ⟨404, "Try-on result not found"⟩)
    ∧ (∀ r, find_one
          [{ initial_tryon_result sampleRequest "id-1" 3 with status := "failed" },
           { initial_tryon_result sampleRequest "id-2" 7 with
              tryon_image := some "http://fal.media/img.png", status := "completed" }] "id-9"
            = some r → r.status ≠ "completed" →
        get_tryon_image_base64
          [{ initial_tryon_result sampleRequest "id-1" 3 with status := "failed" },
           { initial_tryon_result sampleRequest "id-2" 7 with
              tryon_image := some "http://fal.media/img.png", status := "completed" }] "id-9"
            = .error ⟨404, "Try-on image not available"⟩)
    ∧ (∀ resp, get_tryon_image_base64
          [{ initial_tryon_result sampleRequest "id-1" 3 with status := "failed" },
           { initial_tryon_result sampleRequest "id-2" 7 with
              tryon_image := some "http://fal.media/img.png", status := "completed" }] "id-9"
            = .ok resp →
        ∃ r, find_one
            [{ initial_tryon_result sampleRequest "id-1" 3 with status := "failed" },
             { initial_tryon_result sampleRequest "id-2" 7 with
                tryon_image := some "http://fal.media/img.png", status := "completed" }] "id-9"
            = some r
          ∧ r.status = "completed"
          ∧ r.tryon_image = some resp.image_base64
          ∧ resp.image_base64 ≠ "") :=
  C6_get_artifact_errors
    [{ initial_tryon_result sampleRequest "id-1" 3 with status := "failed" },
     { initial_tryon_result sampleRequest "id-2" 7 with
        tryon_image := some "http://fal.media/img.png", status := "completed" }] "id-9"
    (by decide)

/-! ### Claim C1 -/

/-- C1: a submit call that passes validation either returns a body with
status `completed` and a non-empty artifact, or fails with the HTTP 500
generation error (whose detail carries the underlying message) while the
record persisted under the fresh id has status `failed`; the disjunction is
exhaustive.  The freshness of the uuid and the non-emptiness of provider
urls are environment assumptions. -/
theorem C1_submit_dichotomy (request : TryOnRequest) (newId : String) (now : Nat)
    (dec : String → Bool) (falResp : FalResponse) (store : List TryOnResult)
    (hv : validRequest request) (hf : freshId store newId)
    (hu : urlsNonEmpty falResp) :
    (∃ resp : TryOnGenerateResponse,
        (generate_tryon request newId now dec falResp store).1 = .ok resp
        ∧ resp.status = "completed"
        ∧ ∃ a, resp.tryon_image = some a ∧ a ≠ "")
    ∨ (∃ e : HTTPException,
        (generate_tryon request newId now dec falResp store).1 = .error e
        ∧ e.status_code = 500
        ∧ (∃ msg, e.detail = "Failed to generate try-on: " ++ msg)
        ∧ ∃ r, find_one (generate_tryon request newId now dec falResp store).2 newId = some r
            ∧ r.status = "failed") := by
  cases hg : (generate_virtual_tryon request.user_image request.clothing_image
      request.measurements request.style request.name dec falResp).2 with
  | success img fb =>
      left
      rw [generate_tryon_success_eq request newId now dec falResp store img fb hv hf hg]
      exact ⟨_, rfl, rfl, img, rfl,
        generate_virtual_tryon_success_shape _ _ _ _ _ _ _ _ _ hg hu⟩
  | failure err =>
      right
      rw [generate_tryon_failure_eq request newId now dec falResp store err hv hf hg]
      refine ⟨_, rfl, rfl, ⟨err, rfl⟩, ?_⟩
      exact ⟨_, find_one_append_fresh store _ newId rfl hf, rfl⟩

/-- Witness for C1 at a concrete valid request against a one-artifact
provider response (the success branch of the dichotomy). -/
theorem C1_witness :
    (∃ resp : TryOnGenerateResponse,
        (generate_tryon sampleRequest "id-1" 0 allDecode sampleFal []).1 = .ok resp
        ∧ resp.status = "completed"
        ∧ ∃ a, resp.tryon_image = some a ∧ a ≠ "")
    ∨ (∃ e : HTTPException,
        (generate_tryon sampleRequest "id-1" 0 allDecode sampleFal []).1 = .error e
        ∧ e.status_code = 500
        ∧ (∃ msg, e.detail = "Failed to generate try-on: " ++ msg)
        ∧ ∃ r, find_one (generate_tryon sampleRequest "id-1" 0 allDecode sampleFal []).2 "id-1"
            = some r ∧ r.status = "failed") :=
  C1_submit_dichotomy sampleRequest "id-1" 0 allDecode sampleFal []
    (by decide) (by decide) (by decide)

/-! ### Claim C3 -/

/-- C3: the artifact-presence invariant (`tryon_image` set iff status is
`completed`) holds after each of the two persistence writes of a submit call
that passes validation, provided it held before and the generated id is
fresh.  The submit handler is the only writer of the collection. -/
theorem C3_artifact_iff_completed (request : TryOnRequest) (newId : String) (now : Nat)
    (dec : String → Bool) (falResp : FalResponse) (store : List TryOnResult)
    (hv : validRequest request) (hf : freshId store newId)
    (hinv : artifactStatusInv store) :
    artifactStatusInv (store ++ [initial_tryon_result request newId now])
    ∧ artifactStatusInv (generate_tryon request newId now dec falResp store).2 := by
  constructor
  · intro r hr
    rcases List.mem_append.mp hr with hmem | hmem
    · exact hinv r hmem
    · have : r = initial_tryon_result request newId now := by simpa using hmem
      subst this
      simp [initial_tryon_result]
  · cases hg : (generate_virtual_tryon request.user_image request.clothing_image
        request.measurements request.style request.name dec falResp).2 with
    | success img fb =>
        rw [generate_tryon_success_eq request newId now dec falResp store img fb hv hf hg]
        intro r hr
        rcases List.mem_append.mp hr with hmem | hmem
        · exact hinv r hmem
        · have : r = { initial_tryon_result request newId now with
              tryon_image := some img, feedback := some fb, status := "completed" } := by
            simpa using hmem
          subst this
          simp [initial_tryon_result]
    | failure err =>
        rw [generate_tryon_failure_eq request newId now dec falResp store err hv hf hg]
        intro r hr
        rcases List.mem_append.mp hr with hmem | hmem
        · exact hinv r hmem
        · have : r = { initial_tryon_result request newId now with status := "failed" } := by
            simpa using hmem
          subst this
          simp [initial_tryon_result]

/-- Witness for C3: concrete valid request on the empty store, one-artifact
provider response. -/
theorem C3_witness :
    artifactStatusInv ([] ++ [initial_tryon_result sampleRequest "id-1" 0])
    ∧ artifactStatusInv (generate_tryon sampleRequest "id-1" 0 allDecode sampleFal []).2 :=
  C3_artifact_iff_completed sampleRequest "id-1" 0 allDecode sampleFal []
    (by decide) (by decide) (by decide)

/-! ### Claim C4 -/

theorem statusOf_append_single (store : List TryOnResult) (t : TryOnResult) (j : String) :
    statusOf (store ++ [t]) j
      = (statusOf store j).or (if t.id = j then some t.status else none) := by
  unfold statusOf
  rw [find_one_append, find_one_singleton]
  cases find_one store j with
  | none =>
      show (if t.id = j then some t else none).map (fun r => r.status)
          = Option.or none (if t.id = j then some t.status else none)
      split <;> rfl
  | some r => rfl

/-- C4: across the write points of a submit call with a fresh id, the fresh
record starts at status `processing`; the create write changes no existing
record's status and only brings the new record into existence at
`processing`; the update write either leaves a record's status unchanged or
moves exactly the `processing` record to `completed` or `failed`.  Hence a
persisted status never moves backward, out of a terminal state, or between
the two terminal states. -/
theorem C4_status_transitions (request : TryOnRequest) (newId : String) (now : Nat)
    (dec : String → Bool) (falResp : FalResponse) (store : List TryOnResult)
    (hv : validRequest request) (hf : freshId store newId) :
    (initial_tryon_result request newId now).status = "processing"
    ∧ (∀ j, statusOf (store ++ [initial_tryon_result request newId now]) j = statusOf store j
          ∨ (statusOf store j = none
             ∧ statusOf (store ++ [initial_tryon_result request newId now]) j
                = some "processing"))
    ∧ (∀ j, statusOf (generate_tryon request newId now dec falResp store).2 j
              = statusOf (store ++ [initial_tryon_result request newId now]) j
          ∨ (statusOf (store ++ [initial_tryon_result request newId now]) j
                = some "processing"
             ∧ (statusOf (generate_tryon request newId now dec falResp store).2 j
                  = some "completed"
                ∨ statusOf (generate_tryon request newId now dec falResp store).2 j
                  = some "failed"))) := by
  refine ⟨rfl, ?_, ?_⟩
  · intro j
    rw [statusOf_append_single]
    cases hs : statusOf store j with
    | some st => left; rfl
    | none =>
        by_cases hj : (initial_tryon_result request newId now).id = j
        · right
          have hj2 : newId = j := hj
          exact ⟨rfl, by simp [initial_tryon_result, hj2]⟩
        · left
          simp [hj]
  · intro j
    have hfinal : ∃ t : TryOnResult, t.id = newId
        ∧ (t.status = "completed" ∨ t.status = "failed")
        ∧ (generate_tryon request newId now dec falResp store).2 = store ++ [t] := by
      cases hg : (generate_virtual_tryon request.user_image request.clothing_image
          request.measurements request.style request.name dec falResp).2 with
      | success img fb =>
          exact ⟨_, rfl, Or.inl rfl,
            by rw [generate_tryon_success_eq request newId now dec falResp store img fb hv hf hg]⟩
      | failure err =>
          exact ⟨_, rfl, Or.inr rfl,
            by rw [generate_tryon_failure_eq request newId now dec falResp store err hv hf hg]⟩
    obtain ⟨t, htid, hterm, heq⟩ := hfinal
    rw [heq, statusOf_append_single, statusOf_append_single]
    cases hs : statusOf store j with
    | some st => left; rfl
    | none =>
        by_cases hj : newId = j
        · right
          constructor
          · simp [initial_tryon_result, hj]
          · rcases hterm with ht | ht
            · left; simp [htid, hj, ht]
            · right; simp [htid, hj, ht]
        · left
          have h₁ : (initial_tryon_result request newId now).id = j ↔ False := by
            simp [initial_tryon_result, hj]
          simp [h₁, htid, hj]

/-- Witness for C4: concrete valid request on the empty store, one-artifact
provider response. -/
theorem C4_witness :
    (initial_tryon_result sampleRequest "id-1" 0).status = "processing"
    ∧ (∀ j, statusOf ([] ++ [initial_tryon_result sampleRequest "id-1" 0]) j = statusOf [] j
          ∨ (statusOf ([] : List TryOnResult) j = none
             ∧ statusOf ([] ++ [initial_tryon_result sampleRequest "id-1" 0]) j
                = some "processing"))
    ∧ (∀ j, statusOf (generate_tryon sampleRequest "id-1" 0 allDecode sampleFal []).2 j
              = statusOf ([] ++ [initial_tryon_result sampleRequest "id-1" 0]) j
          ∨ (statusOf ([] ++ [initial_tryon_result sampleRequest "id-1" 0]) j
                = some "processing"
             ∧ (statusOf (generate_tryon sampleRequest "id-1" 0 allDecode sampleFal []).2 j
                  = some "completed"
                ∨ statusOf (generate_tryon sampleRequest "id-1" 0 allDecode sampleFal []).2 j
                  = some "failed"))) :=
  C4_status_transitions sampleRequest "id-1" 0 allDecode sampleFal []
    (by decide) (by decide)

/-! ### Claim C5 -/

/-- C5: when the external job fails, the submit call leaves the store as the
create write made it except that the new record's status becomes `failed`:
every other field of the stored record equals the corresponding field of the
initially persisted record, and the call fails with the HTTP 500 error whose
detail carries the underlying error text. -/
theorem C5_failure_frame (request : TryOnRequest) (newId : String) (now : Nat)
    (dec : String → Bool) (falResp : FalResponse) (store : List TryOnResult) (err : String)
    (hv : validRequest request) (hf : freshId store newId)
    (hg : (generate_virtual_tryon request.user_image request.clothing_image
            request.measurements request.style request.name dec falResp).2
          = .failure err) :
    ∃ r : TryOnResult,
      (generate_tryon request newId now dec falResp store).2 = store ++ [r]
      ∧ r.status = "failed"
      ∧ r.id = (initial_tryon_result request newId now).id
      ∧ r.name = (initial_tryon_result request newId now).name
      ∧ r.user_image_url = (initial_tryon_result request newId now).user_image_url
      ∧ r.clothing_image_url = (initial_tryon_result request newId now).clothing_image_url
      ∧ r.tryon_image = (initial_tryon_result request newId now).tryon_image
      ∧ r.measurements = (initial_tryon_result request newId now).measurements
      ∧ r.style = (initial_tryon_result request newId now).style
      ∧ r.feedback = (initial_tryon_result request newId now).feedback
      ∧ r.created_at = (initial_tryon_result request newId now).created_at
      ∧ (generate_tryon request newId now dec falResp store).1
          = .error ⟨500, "Failed to generate try-on: " ++ err⟩ := by
  rw [generate_tryon_failure_eq request newId now dec falResp store err hv hf hg]
  exact ⟨_, rfl, rfl, rfl, rfl, rfl, rfl, rfl, rfl, rfl, rfl, rfl, rfl⟩

/-- Witness for C5: concrete valid request against a provider response with
an empty result set. -/
theorem C5_witness :
    ∃ r : TryOnResult,
      (generate_tryon sampleRequest "id-1" 0 allDecode emptyFal []).2 = [] ++ [r]
      ∧ r.status = "failed"
      ∧ r.id = (initial_tryon_result sampleRequest "id-1" 0).id
      ∧ r.name = (initial_tryon_result sampleRequest "id-1" 0).name
      ∧ r.user_image_url = (initial_tryon_result sampleRequest "id-1" 0).user_image_url
      ∧ r.clothing_image_url = (initial_tryon_result sampleRequest "id-1" 0).clothing_image_url
      ∧ r.tryon_image = (initial_tryon_result sampleRequest "id-1" 0).tryon_image
      ∧ r.measurements = (initial_tryon_result sampleRequest "id-1" 0).measurements
      ∧ r.style = (initial_tryon_result sampleRequest "id-1" 0).style
      ∧ r.feedback = (initial_tryon_result sampleRequest "id-1" 0).feedback
      ∧ r.created_at = (initial_tryon_result sampleRequest "id-1" 0).created_at
      ∧ (generate_tryon sampleRequest "id-1" 0 allDecode emptyFal []).1
          = .error ⟨500, "Failed to generate try-on: " ++ "No images generated by FAL.AI"⟩ :=
  C5_failure_frame sampleRequest "id-1" 0 allDecode emptyFal [] "No images generated by FAL.AI"
    (by decide) (by decide) rfl

/-! ### Claim C8 -/

/-- C8: after a submit call that returns successfully with body `resp`, a
lookup of `resp.id` on the resulting store (no intervening writes) returns a
record whose id, name, measurements and style are those of the submitted
request's record. -/
theorem C8_get_after_submit (request : TryOnRequest) (newId : String) (now : Nat)
    (dec : String → Bool) (falResp : FalResponse) (store : List TryOnResult)
    (resp : TryOnGenerateResponse)
    (hv : validRequest request) (hf : freshId store newId)
    (hok : (generate_tryon request newId now dec falResp store).1 = .ok resp) :
    ∃ r : TryOnResult,
      get_tryon_result (generate_tryon request newId now dec falResp store).2 resp.id
        = .ok r
      ∧ r.id = newId
      ∧ r.name = request.name
      ∧ r.measurements = request.measurements
      ∧ r.style = request.style := by
  cases hg : (generate_virtual_tryon request.user_image request.clothing_image
      request.measurements request.style request.name dec falResp).2 with
  | failure err =>
      rw [generate_tryon_failure_eq request newId now dec falResp store err hv hf hg] at hok
      exact absurd hok (by simp)
  | success img fb =>
      have heq := generate_tryon_success_eq request newId now dec falResp store img fb hv hf hg
      rw [heq] at hok
      simp only [Except.ok.injEq] at hok
      subst hok
      rw [heq]
      refine ⟨{ initial_tryon_result request newId now with
                 tryon_image := some img, feedback := some fb, status := "completed" },
              ?_, rfl, rfl, rfl, rfl⟩
      show get_tryon_result _ newId = _
      unfold get_tryon_result
      rw [find_one_append_fresh store _ newId rfl hf]

/-- Witness for C8 at the concrete sample request and provider response. -/
theorem C8_witness :
    ∃ r : TryOnResult,
      get_tryon_result (generate_tryon sampleRequest "id-1" 0 allDecode sampleFal []).2
          (TryOnGenerateResponse.mk true "id-1" (some "http://fal.media/img.png")
            (some "Virtual try-on generated successfully for casual style!") "completed").id
        = .ok r
      ∧ r.id = "id-1"
      ∧ r.name = sampleRequest.name
      ∧ r.measurements = sampleRequest.measurements
      ∧ r.style = sampleRequest.style :=
  C8_get_after_submit sampleRequest "id-1" 0 allDecode sampleFal []
    (TryOnGenerateResponse.mk true "id-1" (some "http://fal.media/img.png")
      (some "Virtual try-on generated successfully for casual style!") "completed")
    (by decide) (by decide) rfl

/-! ### Claim C9 -/

/-- C9 counterexample: two submit calls identical except for the `name`
field produce the very same returned value while the records they persist
differ — so the value returned to the caller is not the stored record
(it omits `name`, `measurements`, `style` and `created_at`; it only carries
`success`, `id`, `tryon_image`, `feedback` and `status`). -/
theorem C9_counterexample :
    (generate_tryon { sampleRequest with name := "Alice" } "id-0" 0 allDecode sampleFal []).1
      = (generate_tryon { sampleRequest with name := "Bob" } "id-0" 0 allDecode sampleFal []).1
    ∧ (generate_tryon { sampleRequest with name := "Alice" } "id-0" 0 allDecode sampleFal []).2
      ≠ (generate_tryon { sampleRequest with name := "Bob" } "id-0" 0 allDecode sampleFal []).2 :=
  ⟨rfl, by decide⟩

/-- C9 (amended): on job success the submit call persists the
`status=completed` update and returns a body that agrees with the stored
updated record on `id`, `tryon_image`, `feedback` and `status` (with a
`success` flag), the body being exactly those five fields. -/
theorem C9_success_response_matches_store (request : TryOnRequest) (newId : String)
    (now : Nat) (dec : String → Bool) (falResp : FalResponse) (store : List TryOnResult)
    (img fb : String)
    (hv : validRequest request) (hf : freshId store newId)
    (hg : (generate_virtual_tryon request.user_image request.clothing_image
            request.measurements request.style request.name dec falResp).2
          = .success img fb) :
    ∃ r : TryOnResult,
      find_one (generate_tryon request newId now dec falResp store).2 newId = some r
      ∧ r.status = "completed"
      ∧ r.tryon_image = some img
      ∧ r.feedback = some fb
      ∧ (generate_tryon request newId now dec falResp store).1
          = .ok { success := true, id := r.id, tryon_image := r.tryon_image,
                  feedback := r.feedback, status := r.status } := by
  rw [generate_tryon_success_eq request newId now dec falResp store img fb hv hf hg]
  exact ⟨_, find_one_append_fresh store _ newId rfl hf, rfl, rfl, rfl, rfl⟩

/-- Witness for the amended C9 at the concrete sample request. -/
theorem C9_witness :
    ∃ r : TryOnResult,
      find_one (generate_tryon sampleRequest "id-1" 0 allDecode sampleFal []).2 "id-1"
        = some r
      ∧ r.status = "completed"
      ∧ r.tryon_image = some "http://fal.media/img.png"
      ∧ r.feedback = some "Virtual try-on generated successfully for casual style!"
      ∧ (generate_tryon sampleRequest "id-1" 0 allDecode sampleFal []).1
          = .ok { success := true, id := r.id, tryon_image := r.tryon_image,
                  feedback := r.feedback, status := r.status } :=
  C9_success_response_matches_store sampleRequest "id-1" 0 allDecode sampleFal []
    "http://fal.media/img.png" "Virtual try-on generated successfully for casual style!"
    (by decide) (by decide) rfl

/-! ### Claim C10 -/

/-- C10: two submit requests identical except for their image payloads, all
four payloads decoding to valid images, lead to identical arguments being
passed to the external job client (the prompt mentions only measurements and
style) and to persisted records identical up to the freshly generated id and
timestamp: the image payloads are neither forwarded to the external job nor
stored. -/
theorem C10_images_not_forwarded_nor_stored
    (name ui₁ ci₁ ui₂ ci₂ : String) (m : Measurements) (style : String)
    (nid₁ nid₂ : String) (now₁ now₂ : Nat)
    (dec : String → Bool) (falResp : FalResponse) (store : List TryOnResult)
    (hd₁ : dec ui₁ = true) (hd₂ : dec ci₁ = true)
    (hd₃ : dec ui₂ = true) (hd₄ : dec ci₂ = true)
    (hv₁ : validRequest ⟨name, ui₁, ci₁, m, style⟩)
    (hv₂ : validRequest ⟨name, ui₂, ci₂, m, style⟩)
    (hf₁ : freshId store nid₁) (hf₂ : freshId store nid₂) :
    (generate_virtual_tryon ui₁ ci₁ m style name dec falResp).1
      = some (falArgumentsFor m style)
    ∧ (generate_virtual_tryon ui₂ ci₂ m style name dec falResp).1
      = some (falArgumentsFor m style)
    ∧ contentFields (initial_tryon_result ⟨name, ui₁, ci₁, m, style⟩ nid₁ now₁)
      = contentFields (initial_tryon_result ⟨name, ui₂, ci₂, m, style⟩ nid₂ now₂)
    ∧ ∃ r₁ r₂ : TryOnResult,
        (generate_tryon ⟨name, ui₁, ci₁, m, style⟩ nid₁ now₁ dec falResp store).2
          = store ++ [r₁]
        ∧ (generate_tryon ⟨name, ui₂, ci₂, m, style⟩ nid₂ now₂ dec falResp store).2
          = store ++ [r₂]
        ∧ contentFields r₁ = contentFields r₂ := by
  have harg₁ : (generate_virtual_tryon ui₁ ci₁ m style name dec falResp).1
      = some (falArgumentsFor m style) := by
    unfold generate_virtual_tryon
    rw [if_pos (by simp [hd₁, hd₂])]
  have harg₂ : (generate_virtual_tryon ui₂ ci₂ m style name dec falResp).1
      = some (falArgumentsFor m style) := by
    unfold generate_virtual_tryon
    rw [if_pos (by simp [hd₃, hd₄])]
  have hgen : (generate_virtual_tryon ui₁ ci₁ m style name dec falResp).2
      = (generate_virtual_tryon ui₂ ci₂ m style name dec falResp).2 := by
    rw [generate_virtual_tryon_cases, generate_virtual_tryon_cases,
      if_pos (by simp [hd₁, hd₂]), if_pos (by simp [hd₃, hd₄])]
  refine ⟨harg₁, harg₂, rfl, ?_⟩
  cases hg : (generate_virtual_tryon ui₁ ci₁ m style name dec falResp).2 with
  | success img fb =>
      have hg₂ := hgen ▸ hg
      exact ⟨{ initial_tryon_result ⟨name, ui₁, ci₁, m, style⟩ nid₁ now₁ with
                tryon_image := some img, feedback := some fb, status := "completed" },
             { initial_tryon_result ⟨name, ui₂, ci₂, m, style⟩ nid₂ now₂ with
                tryon_image := some img, feedback := some fb, status := "completed" },
        by rw [generate_tryon_success_eq _ _ _ _ _ _ _ _ hv₁ hf₁ hg],
        by rw [generate_tryon_success_eq _ _ _ _ _ _ _ _ hv₂ hf₂ hg₂], rfl⟩
  | failure err =>
      have hg₂ := hgen ▸ hg
      exact ⟨{ initial_tryon_result ⟨name, ui₁, ci₁, m, style⟩ nid₁ now₁ with
                status := "failed" },
             { initial_tryon_result ⟨name, ui₂, ci₂, m, style⟩ nid₂ now₂ with
                status := "failed" },
        by rw [generate_tryon_failure_eq _ _ _ _ _ _ _ hv₁ hf₁ hg],
        by rw [generate_tryon_failure_eq _ _ _ _ _ _ _ hv₂ hf₂ hg₂], rfl⟩

/-- Witness for C10: the sample request with two different image-payload
pairs, on the empty store. -/
theorem C10_witness :
    (generate_virtual_tryon "u1" "c1" sampleMeasurements "casual" "Test User"
        allDecode sampleFal).1
      = some (falArgumentsFor sampleMeasurements "casual")
    ∧ (generate_virtual_tryon "u2" "c2" sampleMeasurements "casual" "Test User"
        allDecode sampleFal).1
      = some (falArgumentsFor sampleMeasurements "casual")
    ∧ contentFields (initial_tryon_result
        ⟨"Test User", "u1", "c1", sampleMeasurements, "casual"⟩ "id-1" 0)
      = contentFields (initial_tryon_result
        ⟨"Test User", "u2", "c2", sampleMeasurements, "casual"⟩ "id-2" 1)
    ∧ ∃ r₁ r₂ : TryOnResult,
        (generate_tryon ⟨"Test User", "u1", "c1", sampleMeasurements, "casual"⟩
            "id-1" 0 allDecode sampleFal []).2 = [] ++ [r₁]
        ∧ (generate_tryon ⟨"Test User", "u2", "c2", sampleMeasurements, "casual"⟩
            "id-2" 1 allDecode sampleFal []).2 = [] ++ [r₂]
        ∧ contentFields r₁ = contentFields r₂ :=
  C10_images_not_forwarded_nor_stored "Test User" "u1" "c1" "u2" "c2"
    sampleMeasurements "casual" "id-1" "id-2" 0 1 allDecode sampleFal []
    rfl rfl rfl rfl (by decide) (by decide) (by decide) (by decide)

end TryOnServer
